import Mathlib

/-
  Verification of the S3 bucket analysis and troubleshooting tool.

  Shallow embedding of the scoring/aggregation engine (src/models.py), the
  diagnostic check catalog (src/diagnostics.py), the AWS client result
  shaping (src/aws_client.py) and the remediation engine (src/remediator.py).

  Modelling conventions:
  * Python floats are modelled as exact rationals (all weights involved are
    small decimal constants); Python `int()` truncation is `py_int`.
  * A Python function that can raise is embedded as `Except String α`; the
    string is the exception text.
  * `DiagnosticResult.details` (an opaque display dict) and the wall-clock
    `timestamp` field are elided: no specified behaviour reads them.
  * `json.loads` is Python stdlib (an external collaborator): its outcome is
    an input of the policy check, `Except Unit JVal` (error = JSONDecodeError).
-/

namespace S3Troubleshooter

/-- Severity enumeration, src/models.py lines 9-14. -/
inductive Severity where
  | CRITICAL
  | HIGH
  | MEDIUM
  | LOW
  | INFO
deriving DecidableEq

/-- CheckStatus enumeration, src/models.py lines 17-22.
Note: the source enum has exactly these five members; it has no INFO member,
although src/diagnostics.py refers to `CheckStatus.INFO` in four places
(an AttributeError at run time). -/
inductive CheckStatus where
  | PASS
  | FAIL
  | WARNING
  | ERROR
  | SKIPPED
deriving DecidableEq

/-- DiagnosticResult record, src/models.py lines 25-37 (details/timestamp elided). -/
structure DiagnosticResult where
  check_name : String
  status : CheckStatus
  severity : Severity
  message : String
  recommendation : String := ""
  auto_fixable : Bool := false
  fix_description : String := ""
deriving DecidableEq

/-- BucketReport aggregate, src/models.py lines 53-65 (timestamps and the
AI narration fields elided). -/
structure BucketReport where
  bucket_name : String
  region : String
  results : List DiagnosticResult
  overall_health : String := "UNKNOWN"
  score : ℤ := 0
deriving DecidableEq

/-- Status weight table of calculate_score, src/models.py lines 96-102. -/
def status_weight : CheckStatus → ℚ
  | .PASS => 1
  | .WARNING => 3/5
  | .FAIL => 0
  | .ERROR => 0
  | .SKIPPED => 1/2

/-- Severity multiplier table of calculate_score, src/models.py lines 104-110. -/
def severity_multiplier : Severity → ℚ
  | .CRITICAL => 3
  | .HIGH => 5/2
  | .MEDIUM => 2
  | .LOW => 3/2
  | .INFO => 1

/-- The accumulation loop of calculate_score, src/models.py lines 112-118:
returns (weighted_score, total_weight). -/
def score_accum (results : List DiagnosticResult) : ℚ × ℚ :=
  results.foldl
    (fun acc r =>
      (acc.1 + status_weight r.status * severity_multiplier r.severity,
       acc.2 + severity_multiplier r.severity))
    (0, 0)

/-- Python `int()` applied to a float: truncation toward zero. -/
def py_int (q : ℚ) : ℤ := if 0 ≤ q then ⌊q⌋ else ⌈q⌉

/-- The health-label threshold chain, src/models.py lines 124-133. -/
def health_label (score : ℤ) : String :=
  if score ≥ 90 then "HEALTHY"
  else if score ≥ 70 then "GOOD"
  else if score ≥ 50 then "NEEDS_ATTENTION"
  else if score ≥ 30 then "UNHEALTHY"
  else "CRITICAL"

/-- BucketReport.calculate_score, src/models.py lines 88-133, embedded as a
pure function from the result sequence to (score, overall_health). -/
def calculate_score (results : List DiagnosticResult) : ℤ × String :=
  if results.isEmpty then (0, "UNKNOWN")
  else
    let acc := score_accum results
    let score : ℤ := if 0 < acc.2 then py_int (acc.1 / acc.2 * 100) else 0
    (score, health_label score)

/-- Specification-side weighted sum: Σ status_weight * severity_multiplier. -/
def weighted_sum (results : List DiagnosticResult) : ℚ :=
  (results.map (fun r => status_weight r.status * severity_multiplier r.severity)).sum

/-- Specification-side total weight: Σ severity_multiplier. -/
def total_weight (results : List DiagnosticResult) : ℚ :=
  (results.map (fun r => severity_multiplier r.severity)).sum

/-! ## JSON values

`json.loads` may return any JSON value; the policy check walks it with
Python dict/list operations.  Numbers carry their literal text: the code
never inspects them. -/

inductive JVal where
  | null
  | bool (b : Bool)
  | num (lit : String)
  | str (s : String)
  | arr (elems : List JVal)
  | obj (fields : List (String × JVal))

/-- Python `j == "t"` for a JSON value against a string literal. -/
def JVal.isStrEq : JVal → String → Bool
  | .str s, t => s == t
  | _, _ => false

/-- Python `principal == {"AWS": "*"}`: a dict with exactly the one entry. -/
def JVal.isAwsStarObj : JVal → Bool
  | .obj [(k, .str v)] => k == "AWS" && v == "*"
  | _ => false

/-- Python `statement.get(key, dflt)`: AttributeError when the value is not a
dict. -/
def jget (j : JVal) (key : String) (dflt : JVal) : Except String JVal :=
  match j with
  | .obj kvs => .ok ((kvs.lookup key).getD dflt)
  | _ => .error "AttributeError: get"

/-- Python `key in statement` on a dict value. -/
def JVal.hasKey (j : JVal) (key : String) : Bool :=
  match j with
  | .obj kvs => kvs.any (fun kv => kv.1 == key)
  | _ => false

/-- Python `for x in v`: lists iterate elements, strings iterate one-character
strings, dicts iterate keys, other values raise TypeError. -/
def jIter : JVal → Except String (List JVal)
  | .arr l => .ok l
  | .str s => .ok (s.toList.map (fun c => .str (String.singleton c)))
  | .obj kvs => .ok (kvs.map (fun kv => JVal.str kv.1))
  | _ => .error "TypeError: not iterable"

/-! ## Fact Provider result dictionaries (src/aws_client.py)

Each structure mirrors the dict a query of S3Client returns after its own
error handling; a field that a check never reads is elided. -/

/-- Result of S3Client.bucket_exists, src/aws_client.py lines 70-85. -/
structure ExistenceFacts where
  exists_ : Bool
  accessible : Bool
deriving DecidableEq

/-- Result of S3Client.get_bucket_policy, src/aws_client.py lines 95-102;
the check immediately runs `json.loads` (stdlib) on the stored policy text,
so the embedding carries the parse outcome (error = JSONDecodeError). -/
structure PolicyFacts where
  exists_ : Bool
  parse : Except Unit JVal

/-- PublicAccessBlockConfiguration flags, in AWS response key order. -/
structure PABConfig where
  block_public_acls : Bool
  ignore_public_acls : Bool
  block_public_policy : Bool
  restrict_public_buckets : Bool
deriving DecidableEq

/-- Result of S3Client.get_public_access_block, src/aws_client.py lines
115-125.  `config` is only read when `exists_` is true. -/
structure PublicAccessFacts where
  exists_ : Bool
  config : PABConfig
deriving DecidableEq

/-- One ACL grant; the check reads Grantee.URI (default "") and Permission. -/
structure AclGrant where
  uri : String
  permission : String
deriving DecidableEq

/-- Result of S3Client.get_bucket_acl, src/aws_client.py lines 104-113. -/
structure AclFacts where
  success : Bool
  grants : List AclGrant
  error : String := ""
deriving DecidableEq

/-- One encryption rule; `sse_algorithm` collapses the two-level lookup
`rule.get("ApplyServerSideEncryptionByDefault", {}).get("SSEAlgorithm")`. -/
structure EncRule where
  sse_algorithm : Option String
deriving DecidableEq

/-- Result of S3Client.get_bucket_encryption, src/aws_client.py lines 127-135. -/
structure EncryptionFacts where
  enabled : Bool
  rules : List EncRule
deriving DecidableEq

/-- Result of S3Client.get_bucket_versioning, src/aws_client.py lines 137-145:
on a ClientError the client returns status "Unknown" with the error text. -/
structure VersioningFacts where
  status : String
  mfa_delete : String := "Disabled"
  error : Option String := none
deriving DecidableEq

/-- Raw AWS GetBucketVersioning response body (fields may be absent). -/
structure VersioningRaw where
  status_field : Option String
  mfa_delete_field : Option String
deriving DecidableEq

/-- S3Client.get_bucket_versioning, src/aws_client.py lines 137-145, mapping
the raw AWS call outcome (error = ClientError text) to the fact dict. -/
def get_bucket_versioning (raw : Except String VersioningRaw) : VersioningFacts :=
  match raw with
  | .ok r =>
      { status := r.status_field.getD "Disabled",
        mfa_delete := r.mfa_delete_field.getD "Disabled" }
  | .error e => { status := "Unknown", error := some e }

/-- One lifecycle rule; the check reads `r.get("Status")`. -/
structure LifecycleRule where
  status_ : Option String
deriving DecidableEq

/-- Result of S3Client.get_lifecycle_rules, src/aws_client.py lines 147-156. -/
structure LifecycleFacts where
  exists_ : Bool
  rules : List LifecycleRule
deriving DecidableEq

/-- One CORS rule; the check reads AllowedOrigins and AllowedMethods. -/
structure CorsRule where
  allowed_origins : List String
  allowed_methods : List String
deriving DecidableEq

/-- Result of S3Client.get_cors_configuration, src/aws_client.py lines 158-165. -/
structure CorsFacts where
  exists_ : Bool
  rules : List CorsRule
deriving DecidableEq

/-- Result of S3Client.get_bucket_logging, src/aws_client.py lines 167-173. -/
structure LoggingFacts where
  enabled : Bool
deriving DecidableEq

/-- Result of S3Client.get_bucket_replication, src/aws_client.py lines 175-182. -/
structure ReplicationFacts where
  enabled : Bool
deriving DecidableEq

/-- Result of S3Client.get_object_lock_configuration, src/aws_client.py
lines 184-191. -/
structure ObjectLockFacts where
  enabled : Bool
deriving DecidableEq

/-- Result of S3Client.get_transfer_acceleration, src/aws_client.py lines
193-201; the error dict has no "status" key, hence the Option. -/
structure AccelerationFacts where
  status_ : Option String
deriving DecidableEq

/-- One bucket tag; the check reads t["Key"]. -/
structure BucketTag where
  key : String
deriving DecidableEq

/-- Result of S3Client.get_bucket_tagging, src/aws_client.py lines 203-210. -/
structure TaggingFacts where
  exists_ : Bool
  tags : List BucketTag
deriving DecidableEq

/-- Result of S3Client.get_bucket_size_estimate, src/aws_client.py lines
220-242.  The numeric fields feed only the success-branch message of
check_bucket_size, which is never built because evaluating
`CheckStatus.INFO` raises first, so they are elided. -/
structure SizeFacts where
  success : Bool
  error : String := ""
deriving DecidableEq

/-- All per-concern facts for one bucket, i.e. the Fact Provider's answers
that one run of run_all_checks consumes. -/
structure BucketFacts where
  location : Option String
  existence : ExistenceFacts
  policy : PolicyFacts
  public_access_block : PublicAccessFacts
  acl : AclFacts
  encryption : EncryptionFacts
  versioning : VersioningFacts
  lifecycle : LifecycleFacts
  cors : CorsFacts
  logging : LoggingFacts
  replication : ReplicationFacts
  object_lock : ObjectLockFacts
  acceleration : AccelerationFacts
  tagging : TaggingFacts
  size : SizeFacts

/-! ## Diagnostic checks (src/diagnostics.py)

Each check is `String → BucketFacts → Except String DiagnosticResult`; an
`Except.error` is a Python exception escaping the check function.  The text
of the AttributeError raised by evaluating the missing enum member
`CheckStatus.INFO` varies across Python versions; the embedding uses the
attribute name. -/

def checkstatus_info_attribute_error : String :=
  "type object CheckStatus has no attribute INFO"

/-- Python `str(xs)` for a list of strings, e.g. `['A', 'B']`. -/
def py_repr_list (xs : List String) : String :=
  "[" ++ String.intercalate ", " (xs.map (fun s => "'" ++ s ++ "'")) ++ "]"

/-- Python `needle in hay` on strings: substring containment. -/
def str_contains (hay needle : String) : Bool :=
  (List.range (hay.length + 1)).any
    (fun i => needle.toList.isPrefixOf (hay.toList.drop i))

/-- S3Diagnostics.check_bucket_exists, src/diagnostics.py lines 76-107. -/
def check_bucket_exists (bucket_name : String) (facts : BucketFacts) :
    Except String DiagnosticResult :=
  let result := facts.existence
  if result.exists_ && result.accessible then
    .ok { check_name := "Bucket Existence & Access", status := .PASS,
          severity := .CRITICAL,
          message := "Bucket '" ++ bucket_name ++ "' exists and is accessible." }
  else if result.exists_ && !result.accessible then
    .ok { check_name := "Bucket Existence & Access", status := .FAIL,
          severity := .CRITICAL,
          message := "Bucket '" ++ bucket_name ++ "' exists but ACCESS DENIED.",
          recommendation := "Check IAM policies. Ensure your user/role has s3:ListBucket, s3:GetBucketLocation permissions. Check bucket policy for explicit denies." }
  else
    .ok { check_name := "Bucket Existence & Access", status := .FAIL,
          severity := .CRITICAL,
          message := "Bucket '" ++ bucket_name ++ "' does NOT exist.",
          recommendation := "Verify the bucket name (case-sensitive, globally unique). Check for typos. The bucket may have been deleted." }

/-- One issue record of the policy analysis (display detail text elided). -/
structure PolicyIssue where
  type_ : String
  severity : String
deriving DecidableEq

/-- The sensitive actions listed in check_bucket_policy. -/
def sensitive_actions : List String :=
  ["s3:DeleteBucket", "s3:DeleteObject", "s3:PutBucketPolicy"]

/-- The per-statement body of the analysis loop in check_bucket_policy,
src/diagnostics.py lines 129-171: the three issue kinds appended in source
order. -/
def statement_issues (stmt : JVal) : Except String (List PolicyIssue) := do
  let principal ← jget stmt "Principal" (.str "")
  let effect ← jget stmt "Effect" (.str "")
  let action ← jget stmt "Action" (.str "")
  let open_access : List PolicyIssue :=
    if effect.isStrEq "Allow" && (principal.isStrEq "*" || principal.isAwsStarObj)
    then [{ type_ := "OPEN_ACCESS", severity := "CRITICAL" }]
    else []
  let wildcard_actions : List PolicyIssue :=
    if action.isStrEq "s3:*"
    then [{ type_ := "WILDCARD_ACTIONS", severity := "HIGH" }]
    else []
  let missing_condition : List PolicyIssue :=
    match action with
    | .arr acts =>
        (acts.filter (fun a =>
            sensitive_actions.any (fun s => a.isStrEq s) &&
            !(stmt.hasKey "Condition"))).map
          (fun _ => { type_ := "MISSING_CONDITION", severity := "MEDIUM" })
    | _ => []
  pure (open_access ++ wildcard_actions ++ missing_condition)

/-- The statement loop of check_bucket_policy over all statements. -/
def policy_issues : List JVal → Except String (List PolicyIssue)
  | [] => .ok []
  | s :: rest => do
      let i ← statement_issues s
      let r ← policy_issues rest
      pure (i ++ r)

/-- S3Diagnostics.check_bucket_policy, src/diagnostics.py lines 109-200. -/
def check_bucket_policy (_bucket_name : String) (facts : BucketFacts) :
    Except String DiagnosticResult :=
  let result := facts.policy
  if !result.exists_ then
    .ok { check_name := "Bucket Policy", status := .WARNING, severity := .LOW,
          message := "No bucket policy is configured.",
          recommendation := "Consider adding a bucket policy to explicitly define access controls." }
  else
    match result.parse with
    | .error _ =>
        .ok { check_name := "Bucket Policy", status := .ERROR, severity := .HIGH,
              message := "Failed to parse bucket policy JSON." }
    | .ok policy =>
      match jget policy "Statement" (.arr []) with
      | .error e => .error e
      | .ok stmts_val =>
      match jIter stmts_val with
      | .error e => .error e
      | .ok stmts =>
      match policy_issues stmts with
      | .error e => .error e
      | .ok issues =>
        if !issues.isEmpty then
          let critical := issues.any (fun i => i.severity == "CRITICAL")
          .ok { check_name := "Bucket Policy",
                status := if critical then .FAIL else .WARNING,
                severity := if critical then .CRITICAL else .HIGH,
                message := "Bucket policy has " ++ toString issues.length ++ " issue(s).",
                recommendation := "Review and tighten bucket policy. Remove wildcard principals, restrict actions, and add conditions." }
        else
          .ok { check_name := "Bucket Policy", status := .PASS, severity := .HIGH,
                message := "Bucket policy exists and appears properly configured." }

/-- The key names of a PublicAccessBlock config whose value is false, in
response key order (`[k for k, v in config.items() if not v]`). -/
def pab_disabled_settings (c : PABConfig) : List String :=
  (if c.block_public_acls then [] else ["BlockPublicAcls"]) ++
  (if c.ignore_public_acls then [] else ["IgnorePublicAcls"]) ++
  (if c.block_public_policy then [] else ["BlockPublicPolicy"]) ++
  (if c.restrict_public_buckets then [] else ["RestrictPublicBuckets"])

/-- S3Diagnostics.check_public_access, src/diagnostics.py lines 202-247. -/
def check_public_access (_bucket_name : String) (facts : BucketFacts) :
    Except String DiagnosticResult :=
  let result := facts.public_access_block
  if !result.exists_ then
    .ok { check_name := "Public Access Block", status := .FAIL,
          severity := .CRITICAL,
          message := "No Public Access Block configuration found! Bucket may be publicly accessible.",
          recommendation := "Enable all four Public Access Block settings immediately.",
          auto_fixable := true,
          fix_description := "Enable BlockPublicAcls, IgnorePublicAcls, BlockPublicPolicy, RestrictPublicBuckets." }
  else
    let config := result.config
    let all_blocked := config.block_public_acls && config.ignore_public_acls &&
      config.block_public_policy && config.restrict_public_buckets
    if all_blocked then
      .ok { check_name := "Public Access Block", status := .PASS,
            severity := .CRITICAL, message := "All public access is blocked." }
    else
      let disabled := pab_disabled_settings config
      .ok { check_name := "Public Access Block", status := .FAIL,
            severity := .CRITICAL,
            message := "Public access block is INCOMPLETE. Disabled: " ++ py_repr_list disabled,
            recommendation := "Enable these settings: " ++ py_repr_list disabled,
            auto_fixable := true,
            fix_description := "Set all Public Access Block settings to True." }

/-- One issue record of the ACL analysis. -/
structure AclIssue where
  type_ : String
  grantee : String
  permission : String
deriving DecidableEq

/-- The grant loop of check_acl_permissions, src/diagnostics.py lines 265-286. -/
def acl_issues (grants : List AclGrant) : List AclIssue :=
  grants.flatMap (fun g =>
    if str_contains g.uri "AllUsers" then
      [{ type_ := "PUBLIC_ACL", grantee := "Everyone (AllUsers)",
         permission := g.permission }]
    else if str_contains g.uri "AuthenticatedUsers" then
      [{ type_ := "AUTHENTICATED_USERS_ACL",
         grantee := "All AWS Authenticated Users", permission := g.permission }]
    else [])

/-- S3Diagnostics.check_acl_permissions, src/diagnostics.py lines 249-304. -/
def check_acl_permissions (_bucket_name : String) (facts : BucketFacts) :
    Except String DiagnosticResult :=
  let result := facts.acl
  if !result.success then
    .ok { check_name := "ACL Permissions", status := .ERROR, severity := .HIGH,
          message := "Could not retrieve ACL: " ++ result.error }
  else
    let issues := acl_issues result.grants
    if !issues.isEmpty then
      .ok { check_name := "ACL Permissions", status := .FAIL,
            severity := .CRITICAL,
            message := "ACL has " ++ toString issues.length ++ " overly permissive grant(s).",
            recommendation := "Remove public ACL grants. Use bucket policies for access control instead." }
    else
      .ok { check_name := "ACL Permissions", status := .PASS, severity := .HIGH,
            message := "ACL permissions look correct." }

/-- S3Diagnostics.check_encryption, src/diagnostics.py lines 306-334;
`rules[0]` on an empty list raises IndexError. -/
def check_encryption (_bucket_name : String) (facts : BucketFacts) :
    Except String DiagnosticResult :=
  let result := facts.encryption
  if result.enabled then
    match result.rules with
    | [] => .error "list index out of range"
    | rule0 :: _ =>
        let algo := rule0.sse_algorithm.getD "Unknown"
        .ok { check_name := "Server-Side Encryption", status := .PASS,
              severity := .HIGH,
              message := "Encryption enabled with " ++ algo ++ "." }
  else
    .ok { check_name := "Server-Side Encryption", status := .FAIL,
          severity := .HIGH,
          message := "Server-side encryption is NOT enabled.",
          recommendation := "Enable default encryption (AES-256 or aws:kms).",
          auto_fixable := true,
          fix_description := "Enable AES-256 default encryption." }

/-- S3Diagnostics.check_versioning, src/diagnostics.py lines 336-370. -/
def check_versioning (_bucket_name : String) (facts : BucketFacts) :
    Except String DiagnosticResult :=
  let status := facts.versioning.status
  if status == "Enabled" then
    .ok { check_name := "Versioning", status := .PASS, severity := .MEDIUM,
          message := "Versioning is enabled." }
  else if status == "Suspended" then
    .ok { check_name := "Versioning", status := .WARNING, severity := .MEDIUM,
          message := "Versioning is SUSPENDED. Previously versioned objects remain, but new versions won't be created.",
          recommendation := "Re-enable versioning for data protection.",
          auto_fixable := true,
          fix_description := "Enable bucket versioning." }
  else
    .ok { check_name := "Versioning", status := .FAIL, severity := .MEDIUM,
          message := "Versioning is NOT enabled.",
          recommendation := "Enable versioning to protect against accidental deletes and overwrites.",
          auto_fixable := true,
          fix_description := "Enable bucket versioning." }

/-- S3Diagnostics.check_lifecycle, src/diagnostics.py lines 372-398. -/
def check_lifecycle (_bucket_name : String) (facts : BucketFacts) :
    Except String DiagnosticResult :=
  let result := facts.lifecycle
  if result.exists_ && !result.rules.isEmpty then
    let enabled_rules := result.rules.filter (fun r => r.status_ == some "Enabled")
    .ok { check_name := "Lifecycle Rules", status := .PASS, severity := .LOW,
          message := toString enabled_rules.length ++ " active lifecycle rule(s) configured." }
  else
    .ok { check_name := "Lifecycle Rules", status := .WARNING, severity := .LOW,
          message := "No lifecycle rules configured.",
          recommendation := "Add lifecycle rules to manage storage costs (e.g., transition to Glacier, expire old objects)." }

/-- One issue record of the CORS analysis (display detail elided). -/
structure CorsIssue where
  rule_index : Nat
  type_ : String
deriving DecidableEq

/-- The rule loop of check_cors, src/diagnostics.py lines 416-435. -/
def cors_issues (rules : List CorsRule) : List CorsIssue :=
  rules.enum.flatMap (fun ir =>
    (if ir.2.allowed_origins.contains "*" then
       [{ rule_index := ir.1, type_ := "WILDCARD_ORIGIN" }]
     else []) ++
    (if ir.2.allowed_methods.contains "DELETE" || ir.2.allowed_methods.contains "PUT" then
       [{ rule_index := ir.1, type_ := "WRITE_METHODS" }]
     else []))

/-- S3Diagnostics.check_cors, src/diagnostics.py lines 400-453. -/
def check_cors (_bucket_name : String) (facts : BucketFacts) :
    Except String DiagnosticResult :=
  let result := facts.cors
  if !result.exists_ then
    .ok { check_name := "CORS Configuration", status := .PASS, severity := .INFO,
          message := "No CORS configuration (fine if not serving web content)." }
  else
    let issues := cors_issues result.rules
    if !issues.isEmpty then
      .ok { check_name := "CORS Configuration", status := .WARNING,
            severity := .MEDIUM,
            message := "CORS has " ++ toString issues.length ++ " potential issue(s).",
            recommendation := "Restrict CORS origins to specific domains. Avoid wildcard (*)." }
    else
      .ok { check_name := "CORS Configuration", status := .PASS, severity := .LOW,
            message := "CORS configuration looks properly scoped." }

/-- S3Diagnostics.check_logging, src/diagnostics.py lines 455-477.  Note the
WARNING branch sets auto_fixable although "Access Logging" has no entry in
the remediation fix_map. -/
def check_logging (_bucket_name : String) (facts : BucketFacts) :
    Except String DiagnosticResult :=
  if facts.logging.enabled then
    .ok { check_name := "Access Logging", status := .PASS, severity := .MEDIUM,
          message := "Access logging is enabled." }
  else
    .ok { check_name := "Access Logging", status := .WARNING, severity := .MEDIUM,
          message := "Access logging is NOT enabled.",
          recommendation := "Enable server access logging for audit and security monitoring.",
          auto_fixable := true,
          fix_description := "Enable access logging to a target bucket." }

/-- S3Diagnostics.check_replication, src/diagnostics.py lines 479-499.  The
not-enabled branch evaluates `CheckStatus.INFO`, a member the CheckStatus
enum does not have: AttributeError. -/
def check_replication (_bucket_name : String) (facts : BucketFacts) :
    Except String DiagnosticResult :=
  if facts.replication.enabled then
    .ok { check_name := "Replication", status := .PASS, severity := .INFO,
          message := "Cross-region/same-region replication is configured." }
  else
    .error checkstatus_info_attribute_error

/-- S3Diagnostics.check_object_lock, src/diagnostics.py lines 501-521; same
AttributeError in the not-enabled branch. -/
def check_object_lock (_bucket_name : String) (facts : BucketFacts) :
    Except String DiagnosticResult :=
  if facts.object_lock.enabled then
    .ok { check_name := "Object Lock", status := .PASS, severity := .INFO,
          message := "Object Lock is enabled (WORM protection)." }
  else
    .error checkstatus_info_attribute_error

/-- S3Diagnostics.check_transfer_acceleration, src/diagnostics.py lines
523-533: its only DiagnosticResult uses `CheckStatus.INFO`, so the check
always raises AttributeError. -/
def check_transfer_acceleration (_bucket_name : String) (_facts : BucketFacts) :
    Except String DiagnosticResult :=
  .error checkstatus_info_attribute_error

/-- The recommended governance tags of check_tagging. -/
def recommended_tags : List String :=
  ["Environment", "Project", "Owner", "CostCenter"]

/-- S3Diagnostics.check_tagging, src/diagnostics.py lines 535-571. -/
def check_tagging (_bucket_name : String) (facts : BucketFacts) :
    Except String DiagnosticResult :=
  let result := facts.tagging
  if result.exists_ && !result.tags.isEmpty then
    let tag_keys := result.tags.map (fun t => t.key)
    let missing := recommended_tags.filter (fun t => !tag_keys.contains t)
    if !missing.isEmpty then
      .ok { check_name := "Bucket Tagging", status := .WARNING, severity := .LOW,
            message := "Bucket has " ++ toString result.tags.length ++
              " tag(s) but missing recommended: " ++ py_repr_list missing,
            recommendation := "Add these tags for governance: " ++ py_repr_list missing }
    else
      .ok { check_name := "Bucket Tagging", status := .PASS, severity := .LOW,
            message := "Bucket has " ++ toString result.tags.length ++
              " tag(s) including recommended governance tags." }
  else
    .ok { check_name := "Bucket Tagging", status := .WARNING, severity := .LOW,
          message := "No tags configured.",
          recommendation := "Add tags (Environment, Project, Owner, CostCenter) for governance." }

/-- S3Diagnostics.check_bucket_size, src/diagnostics.py lines 573-594: the
success branch evaluates `CheckStatus.INFO` (AttributeError); the failure
branch returns an ERROR result. -/
def check_bucket_size (_bucket_name : String) (facts : BucketFacts) :
    Except String DiagnosticResult :=
  if facts.size.success then
    .error checkstatus_info_attribute_error
  else
    .ok { check_name := "Bucket Size", status := .ERROR, severity := .INFO,
          message := "Could not determine bucket size: " ++ facts.size.error }

/-- The fixed ordered check catalog of run_all_checks, src/diagnostics.py
lines 25-40. -/
def checks_catalog :
    List (String × (String → BucketFacts → Except String DiagnosticResult)) :=
  [("Bucket Existence & Access", check_bucket_exists),
   ("Bucket Policy", check_bucket_policy),
   ("Public Access Block", check_public_access),
   ("ACL Permissions", check_acl_permissions),
   ("Server-Side Encryption", check_encryption),
   ("Versioning", check_versioning),
   ("Lifecycle Rules", check_lifecycle),
   ("CORS Configuration", check_cors),
   ("Access Logging", check_logging),
   ("Replication", check_replication),
   ("Object Lock", check_object_lock),
   ("Transfer Acceleration", check_transfer_acceleration),
   ("Bucket Tagging", check_tagging),
   ("Bucket Size", check_bucket_size)]

/-- The try/except body of the loop of run_all_checks, src/diagnostics.py
lines 49-64: an exception becomes a synthetic ERROR/MEDIUM result. -/
def run_one (bucket_name : String) (facts : BucketFacts)
    (entry : String × (String → BucketFacts → Except String DiagnosticResult)) :
    DiagnosticResult :=
  match entry.2 bucket_name facts with
  | .ok r => r
  | .error e =>
      { check_name := entry.1, status := .ERROR, severity := .MEDIUM,
        message := "Check failed with error: " ++ e }

/-- S3Diagnostics.run_all_checks, src/diagnostics.py lines 20-70.
`default_region` is the client's configured region (the fallback when
get_bucket_location fails). -/
def run_all_checks (default_region : String) (bucket_name : String)
    (facts : BucketFacts) : BucketReport :=
  let region := facts.location.getD default_region
  let results := checks_catalog.map (run_one bucket_name facts)
  let sh := calculate_score results
  { bucket_name := bucket_name, region := region, results := results,
    score := sh.1, overall_health := sh.2 }

/-! ## Remediation engine (src/remediator.py)

The three mutation methods of S3Client wrap a raw AWS call (whose outcome,
success or ClientError text, is a field of `S3Api`) into a
`{success, message|error}` dict.  `Confirm.ask` is interactive input, so
remediate_all additionally takes the user's answer. -/

/-- The raw AWS mutation calls available to the remediation methods. -/
structure S3Api where
  put_bucket_versioning : String → Except String Unit
  put_bucket_encryption : String → String → Except String Unit
  put_public_access_block : String → Except String Unit

/-- Outcome dict of one S3Client mutation method. -/
structure FixResult where
  success : Bool
  message : Option String := none
  error : Option String := none
deriving DecidableEq

/-- S3Client.enable_versioning, src/aws_client.py lines 246-254. -/
def enable_versioning (api : S3Api) (bucket_name : String) : FixResult :=
  match api.put_bucket_versioning bucket_name with
  | .ok _ => { success := true, message := some "Versioning enabled" }
  | .error e => { success := false, error := some e }

/-- S3Client.enable_encryption, src/aws_client.py lines 256-278; the Python
default algorithm argument is "AES256". -/
def enable_encryption (api : S3Api) (bucket_name sse_algorithm : String) :
    FixResult :=
  match api.put_bucket_encryption bucket_name sse_algorithm with
  | .ok _ =>
      { success := true,
        message := some ("Encryption enabled with " ++ sse_algorithm) }
  | .error e => { success := false, error := some e }

/-- S3Client.block_public_access, src/aws_client.py lines 280-293. -/
def block_public_access (api : S3Api) (bucket_name : String) : FixResult :=
  match api.put_public_access_block bucket_name with
  | .ok _ => { success := true, message := some "Public access blocked" }
  | .error e => { success := false, error := some e }

/-- The fix_map dict of Remediator._apply_fix, src/remediator.py lines 51-55
(each entry routed through the _fix_* wrappers, which forward the Python
default algorithm). -/
def fix_map (api : S3Api) : List (String × (String → FixResult)) :=
  [("Public Access Block", block_public_access api),
   ("Server-Side Encryption", fun b => enable_encryption api b "AES256"),
   ("Versioning", enable_versioning api)]

/-- One recorded fix outcome: `{"check": name, **result}` or the defensive
no-fix dict. -/
structure ApplyOutcome where
  check : String
  success : Bool
  message : Option String := none
  error : Option String := none
deriving DecidableEq

/-- Remediator._apply_fix, src/remediator.py lines 49-71. -/
def apply_fix (api : S3Api) (bucket_name : String) (issue : DiagnosticResult) :
    ApplyOutcome :=
  match (fix_map api).lookup issue.check_name with
  | some fix_func =>
      let r := fix_func bucket_name
      { check := issue.check_name, success := r.success, message := r.message,
        error := r.error }
  | none =>
      { check := issue.check_name, success := false,
        message := some "No automated fix available for this check." }

/-- The selection comprehension of remediate_all, src/remediator.py
lines 21-25. -/
def fixable_results (report : BucketReport) : List DiagnosticResult :=
  report.results.filter (fun r =>
    r.auto_fixable && (r.status == CheckStatus.FAIL || r.status == CheckStatus.WARNING))

/-- Result of one remediate_all run: whether the confirmation prompt was
shown and the recorded outcomes. -/
structure RemediationRun where
  prompted : Bool
  outcomes : List ApplyOutcome
deriving DecidableEq

/-- Remediator.remediate_all, src/remediator.py lines 19-47.  `auto_approve`
is the constructor flag; `user_confirms` is the answer Confirm.ask would
read (only consulted when a prompt is shown). -/
def remediate_all (api : S3Api) (auto_approve user_confirms : Bool)
    (report : BucketReport) : RemediationRun :=
  let fixable := fixable_results report
  if fixable.isEmpty then { prompted := false, outcomes := [] }
  else if !auto_approve && !user_confirms then { prompted := true, outcomes := [] }
  else
    { prompted := !auto_approve,
      outcomes := fixable.map (apply_fix api report.bucket_name) }

/-! ## Concrete sample inputs used by witnesses and counterexamples -/

/-- A fully healthy set of per-concern facts. -/
def base_facts : BucketFacts :=
  { location := some "eu-west-1",
    existence := { exists_ := true, accessible := true },
    policy := { exists_ := false, parse := .error () },
    public_access_block := { exists_ := true, config := ⟨true, true, true, true⟩ },
    acl := { success := true, grants := [] },
    encryption := { enabled := true, rules := [⟨some "AES256"⟩] },
    versioning := { status := "Enabled" },
    lifecycle := { exists_ := true, rules := [⟨some "Enabled"⟩] },
    cors := { exists_ := false, rules := [] },
    logging := { enabled := true },
    replication := { enabled := false },
    object_lock := { enabled := false },
    acceleration := { status_ := some "Suspended" },
    tagging := { exists_ := true,
                 tags := [⟨"Environment"⟩, ⟨"Project"⟩, ⟨"Owner"⟩, ⟨"CostCenter"⟩] },
    size := { success := false, error := "AccessDenied" } }

/-- Facts in which every concern query failed (the error-dict shapes the
client returns on ClientError). -/
def all_error_facts : BucketFacts :=
  { location := none,
    existence := { exists_ := false, accessible := false },
    policy := { exists_ := false, parse := .error () },
    public_access_block := { exists_ := false, config := ⟨false, false, false, false⟩ },
    acl := { success := false, grants := [], error := "AccessDenied" },
    encryption := { enabled := false, rules := [] },
    versioning := get_bucket_versioning (.error "AccessDenied"),
    lifecycle := { exists_ := false, rules := [] },
    cors := { exists_ := false, rules := [] },
    logging := { enabled := false },
    replication := { enabled := false },
    object_lock := { enabled := false },
    acceleration := { status_ := none },
    tagging := { exists_ := false, tags := [] },
    size := { success := false, error := "AccessDenied" } }

/-- A policy statement with a condition-less sensitive action but neither a
wildcard principal nor a bare s3:* action. -/
def sensitive_stmt : JVal :=
  .obj [("Effect", .str "Allow"),
        ("Principal", .obj [("AWS", .str "arn:aws:iam::123456789012:root")]),
        ("Action", .arr [.str "s3:DeleteObject"]),
        ("Resource", .str "arn:aws:s3:::test-bucket/*")]

/-- A parsed policy whose single statement is `sensitive_stmt`. -/
def sensitive_policy : JVal := .obj [("Statement", .arr [sensitive_stmt])]

/-- Sample PASS/CRITICAL result. -/
def r_pass_critical : DiagnosticResult :=
  { check_name := "c1", status := .PASS, severity := .CRITICAL, message := "ok" }

/-- Sample FAIL/HIGH result. -/
def r_fail_high : DiagnosticResult :=
  { check_name := "c2", status := .FAIL, severity := .HIGH, message := "bad" }

/-- Sample PASS/MEDIUM result. -/
def r_pass_medium : DiagnosticResult :=
  { check_name := "c3", status := .PASS, severity := .MEDIUM, message := "ok" }

/-- An auto-fixable WARNING for a check that has no fix_map entry. -/
def r_logging_warning : DiagnosticResult :=
  { check_name := "Access Logging", status := .WARNING, severity := .MEDIUM,
    message := "Access logging is NOT enabled.",
    recommendation := "Enable server access logging for audit and security monitoring.",
    auto_fixable := true,
    fix_description := "Enable access logging to a target bucket." }

/-- An auto-fixable FAIL for the Versioning check. -/
def r_versioning_fail : DiagnosticResult :=
  { check_name := "Versioning", status := .FAIL, severity := .MEDIUM,
    message := "Versioning is NOT enabled.",
    recommendation := "Enable versioning to protect against accidental deletes and overwrites.",
    auto_fixable := true,
    fix_description := "Enable bucket versioning." }

/-- An S3Api in which every mutation succeeds. -/
def api_ok : S3Api :=
  { put_bucket_versioning := fun _ => .ok (),
    put_bucket_encryption := fun _ _ => .ok (),
    put_public_access_block := fun _ => .ok () }

/-- An S3Api in which every mutation fails with AccessDenied. -/
def api_denied : S3Api :=
  { put_bucket_versioning := fun _ => .error "AccessDenied",
    put_bucket_encryption := fun _ _ => .error "AccessDenied",
    put_public_access_block := fun _ => .error "AccessDenied" }

/-- A report whose only results are clean (nothing auto-fixable failing). -/
def clean_report : BucketReport :=
  { bucket_name := "demo-bucket", region := "eu-west-1",
    results := [r_pass_critical, r_pass_medium] }

/-- A report holding one fixable Versioning FAIL and one fixable Access
Logging WARNING (plus a non-fixable FAIL and a PASS). -/
def mixed_report : BucketReport :=
  { bucket_name := "demo-bucket", region := "eu-west-1",
    results := [r_pass_critical, r_versioning_fail, r_fail_high, r_logging_warning] }

/-- Facts like `base_facts` but with access logging disabled. -/
def logging_off_facts : BucketFacts :=
  { base_facts with logging := { enabled := false } }

/-- Facts like `base_facts` but where the versioning fact query failed with a
ClientError. -/
def versioning_error_facts : BucketFacts :=
  { base_facts with versioning := get_bucket_versioning (.error "AccessDenied") }

/-- Facts like `base_facts` but with a policy that parses to
`sensitive_policy`. -/
def sensitive_policy_facts : BucketFacts :=
  { base_facts with policy := { exists_ := true, parse := .ok sensitive_policy } }

/-- A report whose only result is the fixable Access Logging WARNING. -/
def logging_only_report : BucketReport :=
  { bucket_name := "demo-bucket", region := "eu-west-1",
    results := [r_logging_warning] }

/-! ## Specification-side policy predicates (wording of the spec/claims)

These follow the words of the specification: "wildcard-principal Allow
statement", "bare s3:* action", and the amended third condition, a
list-valued Action holding a sensitive action while the statement has no
Condition block.  They are stated on one parsed statement object. -/

/-- Spec predicate: an Allow statement whose Principal is `*` or `{"AWS": "*"}`. -/
def is_wildcard_principal_allow (stmt : JVal) : Bool :=
  match stmt with
  | .obj kvs =>
      (((kvs.lookup "Effect").getD (.str "")).isStrEq "Allow") &&
      (let p := (kvs.lookup "Principal").getD (.str "")
       p.isStrEq "*" || p.isAwsStarObj)
  | _ => false

/-- Spec predicate: the statement's Action is the bare string `s3:*`. -/
def has_bare_s3_star (stmt : JVal) : Bool :=
  match stmt with
  | .obj kvs => ((kvs.lookup "Action").getD (.str "")).isStrEq "s3:*"
  | _ => false

/-- Spec predicate (amended condition): a list-valued Action holding at least
one sensitive action while the statement has no Condition key. -/
def has_unconditioned_sensitive_action (stmt : JVal) : Bool :=
  match stmt with
  | .obj kvs =>
      (match (kvs.lookup "Action").getD (.str "") with
       | .arr acts => acts.any (fun a => sensitive_actions.any (fun s => a.isStrEq s))
       | _ => false) &&
      !(JVal.hasKey (.obj kvs) "Condition")
  | _ => false

theorem score_accum_go (results : List DiagnosticResult) (a b : ℚ) :
    results.foldl
      (fun acc r =>
        (acc.1 + status_weight r.status * severity_multiplier r.severity,
         acc.2 + severity_multiplier r.severity))
      (a, b) = (a + weighted_sum results, b + total_weight results) := by
  induction results generalizing a b with
  | nil => simp [weighted_sum, total_weight]
  | cons r rest ih =>
      simp only [List.foldl_cons, ih, weighted_sum, total_weight, List.map_cons,
        List.sum_cons]
      rw [Prod.mk.injEq]
      constructor <;> ring

theorem score_accum_eq (results : List DiagnosticResult) :
    score_accum results = (weighted_sum results, total_weight results) := by
  simpa using score_accum_go results 0 0

theorem severity_multiplier_ge_one (s : Severity) : 1 ≤ severity_multiplier s := by
  cases s <;> norm_num [severity_multiplier]

theorem status_weight_nonneg (s : CheckStatus) : 0 ≤ status_weight s := by
  cases s <;> norm_num [status_weight]

theorem total_weight_ge_length (results : List DiagnosticResult) :
    (results.length : ℚ) ≤ total_weight results := by
  induction results with
  | nil => simp [total_weight]
  | cons r rest ih =>
      have h := severity_multiplier_ge_one r.severity
      simp only [total_weight, List.map_cons, List.sum_cons, List.length_cons] at *
      push_cast
      linarith

theorem total_weight_pos (results : List DiagnosticResult) (h : results ≠ []) :
    0 < total_weight results := by
  have hlen : 0 < results.length := List.length_pos.mpr h
  have := total_weight_ge_length results
  have : (1 : ℚ) ≤ (results.length : ℚ) := by exact_mod_cast hlen
  linarith [total_weight_ge_length results]

theorem weighted_sum_nonneg (results : List DiagnosticResult) :
    0 ≤ weighted_sum results := by
  unfold weighted_sum
  apply List.sum_nonneg
  intro x hx
  obtain ⟨r, _, rfl⟩ := List.mem_map.mp hx
  have h1 := status_weight_nonneg r.status
  have h2 := severity_multiplier_ge_one r.severity
  nlinarith



theorem calculate_score_eq (results : List DiagnosticResult) (h : results ≠ []) :
    calculate_score results =
      (⌊weighted_sum results / total_weight results * 100⌋,
       health_label ⌊weighted_sum results / total_weight results * 100⌋) := by
  have hemp : results.isEmpty = false := by
    simpa [List.isEmpty_iff] using h
  have htw : 0 < total_weight results := total_weight_pos results h
  have hq : 0 ≤ weighted_sum results / total_weight results * 100 := by
    have := weighted_sum_nonneg results
    positivity
  simp only [calculate_score, hemp, Bool.false_eq_true, if_false,
    score_accum_eq, py_int]
  rw [if_pos htw, if_pos hq]

/-- C1: calculate_score uses status weights PASS=1, WARNING=0.6, SKIPPED=0.5,
FAIL=0, ERROR=0 and severity multipliers CRITICAL=3, HIGH=2.5, MEDIUM=2,
LOW=1.5, INFO=1; the empty sequence gives (0, UNKNOWN); on a non-empty
sequence the score is floor((weighted_sum / total_weight) * 100) and the
health label is chosen by descending thresholds, first match winning
(≥90 HEALTHY, ≥70 GOOD, ≥50 NEEDS_ATTENTION, ≥30 UNHEALTHY, else CRITICAL);
and on [(PASS,CRITICAL),(FAIL,HIGH),(PASS,MEDIUM)] the outcome is score 66,
health NEEDS_ATTENTION. -/
theorem calculate_score_matches_spec :
    (status_weight .PASS = 1 ∧ status_weight .WARNING = 3/5 ∧
     status_weight .SKIPPED = 1/2 ∧ status_weight .FAIL = 0 ∧
     status_weight .ERROR = 0) ∧
    (severity_multiplier .CRITICAL = 3 ∧ severity_multiplier .HIGH = 5/2 ∧
     severity_multiplier .MEDIUM = 2 ∧ severity_multiplier .LOW = 3/2 ∧
     severity_multiplier .INFO = 1) ∧
    calculate_score [] = (0, "UNKNOWN") ∧
    (∀ results : List DiagnosticResult, results ≠ [] →
      (calculate_score results).1 =
        ⌊weighted_sum results / total_weight results * 100⌋ ∧
      (calculate_score results).2 =
        (if (calculate_score results).1 ≥ 90 then "HEALTHY"
         else if (calculate_score results).1 ≥ 70 then "GOOD"
         else if (calculate_score results).1 ≥ 50 then "NEEDS_ATTENTION"
         else if (calculate_score results).1 ≥ 30 then "UNHEALTHY"
         else "CRITICAL")) ∧
    calculate_score [r_pass_critical, r_fail_high, r_pass_medium] =
      (66, "NEEDS_ATTENTION") := by
  refine ⟨⟨rfl, rfl, rfl, rfl, rfl⟩, ⟨rfl, rfl, rfl, rfl, rfl⟩, rfl, ?_, ?_⟩
  · intro results h
    rw [calculate_score_eq results h]
    exact ⟨rfl, rfl⟩
  · simp only [calculate_score, score_accum, r_pass_critical, r_fail_high,
      r_pass_medium, status_weight, severity_multiplier, py_int, health_label,
      List.foldl, List.isEmpty]
    norm_num [Int.floor_eq_iff]

/-- Witness for C1 at a concrete non-empty input. -/
theorem calculate_score_matches_spec_witness :
    ([r_pass_critical] : List DiagnosticResult) ≠ [] ∧
    (calculate_score [r_pass_critical]).1 =
      ⌊weighted_sum [r_pass_critical] / total_weight [r_pass_critical] * 100⌋ :=
  ⟨List.cons_ne_nil _ _,
   (calculate_score_matches_spec.2.2.2.1 [r_pass_critical]
      (List.cons_ne_nil _ _)).1⟩

theorem run_one_name (bucket_name : String) (facts : BucketFacts) (n : String)
    (f : String → BucketFacts → Except String DiagnosticResult)
    (h : ∀ r, f bucket_name facts = .ok r → r.check_name = n) :
    (run_one bucket_name facts (n, f)).check_name = n := by
  rcases hx : f bucket_name facts with e | r
  · simp [run_one, hx]
  · simp [run_one, hx, h r hx]

theorem check_bucket_exists_name (b : String) (facts : BucketFacts)
    (r : DiagnosticResult) (h : check_bucket_exists b facts = .ok r) :
    r.check_name = "Bucket Existence & Access" := by
  simp only [check_bucket_exists] at h
  repeat' split at h
  all_goals first
    | (injection h with h2; subst h2; rfl)
    | injection h

theorem check_bucket_policy_name (b : String) (facts : BucketFacts)
    (r : DiagnosticResult) (h : check_bucket_policy b facts = .ok r) :
    r.check_name = "Bucket Policy" := by
  simp only [check_bucket_policy] at h
  repeat' split at h
  all_goals first
    | (injection h with h2; subst h2; rfl)
    | injection h

theorem check_public_access_name (b : String) (facts : BucketFacts)
    (r : DiagnosticResult) (h : check_public_access b facts = .ok r) :
    r.check_name = "Public Access Block" := by
  simp only [check_public_access] at h
  repeat' split at h
  all_goals first
    | (injection h with h2; subst h2; rfl)
    | injection h

theorem check_acl_permissions_name (b : String) (facts : BucketFacts)
    (r : DiagnosticResult) (h : check_acl_permissions b facts = .ok r) :
    r.check_name = "ACL Permissions" := by
  simp only [check_acl_permissions] at h
  repeat' split at h
  all_goals first
    | (injection h with h2; subst h2; rfl)
    | injection h

theorem check_encryption_name (b : String) (facts : BucketFacts)
    (r : DiagnosticResult) (h : check_encryption b facts = .ok r) :
    r.check_name = "Server-Side Encryption" := by
  simp only [check_encryption] at h
  repeat' split at h
  all_goals first
    | (injection h with h2; subst h2; rfl)
    | injection h

theorem check_versioning_name (b : String) (facts : BucketFacts)
    (r : DiagnosticResult) (h : check_versioning b facts = .ok r) :
    r.check_name = "Versioning" := by
  simp only [check_versioning] at h
  repeat' split at h
  all_goals first
    | (injection h with h2; subst h2; rfl)
    | injection h

theorem check_lifecycle_name (b : String) (facts : BucketFacts)
    (r : DiagnosticResult) (h : check_lifecycle b facts = .ok r) :
    r.check_name = "Lifecycle Rules" := by
  simp only [check_lifecycle] at h
  repeat' split at h
  all_goals first
    | (injection h with h2; subst h2; rfl)
    | injection h

theorem check_cors_name (b : String) (facts : BucketFacts)
    (r : DiagnosticResult) (h : check_cors b facts = .ok r) :
    r.check_name = "CORS Configuration" := by
  simp only [check_cors] at h
  repeat' split at h
  all_goals first
    | (injection h with h2; subst h2; rfl)
    | injection h

theorem check_logging_name (b : String) (facts : BucketFacts)
    (r : DiagnosticResult) (h : check_logging b facts = .ok r) :
    r.check_name = "Access Logging" := by
  simp only [check_logging] at h
  repeat' split at h
  all_goals first
    | (injection h with h2; subst h2; rfl)
    | injection h

theorem check_replication_name (b : String) (facts : BucketFacts)
    (r : DiagnosticResult) (h : check_replication b facts = .ok r) :
    r.check_name = "Replication" := by
  simp only [check_replication] at h
  repeat' split at h
  all_goals first
    | (injection h with h2; subst h2; rfl)
    | injection h

theorem check_object_lock_name (b : String) (facts : BucketFacts)
    (r : DiagnosticResult) (h : check_object_lock b facts = .ok r) :
    r.check_name = "Object Lock" := by
  simp only [check_object_lock] at h
  repeat' split at h
  all_goals first
    | (injection h with h2; subst h2; rfl)
    | injection h

theorem check_transfer_acceleration_name (b : String) (facts : BucketFacts)
    (r : DiagnosticResult) (h : check_transfer_acceleration b facts = .ok r) :
    r.check_name = "Transfer Acceleration" := by
  simp only [check_transfer_acceleration] at h
  injection h

theorem check_tagging_name (b : String) (facts : BucketFacts)
    (r : DiagnosticResult) (h : check_tagging b facts = .ok r) :
    r.check_name = "Bucket Tagging" := by
  simp only [check_tagging] at h
  repeat' split at h
  all_goals first
    | (injection h with h2; subst h2; rfl)
    | injection h

theorem check_bucket_size_name (b : String) (facts : BucketFacts)
    (r : DiagnosticResult) (h : check_bucket_size b facts = .ok r) :
    r.check_name = "Bucket Size" := by
  simp only [check_bucket_size] at h
  repeat' split at h
  all_goals first
    | (injection h with h2; subst h2; rfl)
    | injection h

/-- C4: run_all_checks returns exactly one result per catalog entry — 14
results whose check names are the 14 catalog names in catalog order, for
every bucket input — and any exception raised by a check function is
converted into a DiagnosticResult with status ERROR, severity MEDIUM and a
message carrying the exception text, never dropped. -/
theorem run_all_checks_total_coverage :
    (∀ (default_region bucket_name : String) (facts : BucketFacts),
      (run_all_checks default_region bucket_name facts).results.length = 14 ∧
      (run_all_checks default_region bucket_name facts).results.map
          (fun r => r.check_name) =
        ["Bucket Existence & Access", "Bucket Policy", "Public Access Block",
         "ACL Permissions", "Server-Side Encryption", "Versioning",
         "Lifecycle Rules", "CORS Configuration", "Access Logging",
         "Replication", "Object Lock", "Transfer Acceleration",
         "Bucket Tagging", "Bucket Size"]) ∧
    (∀ (bucket_name : String) (facts : BucketFacts)
        (entry : String × (String → BucketFacts → Except String DiagnosticResult))
        (e : String), entry.2 bucket_name facts = .error e →
      run_one bucket_name facts entry =
        { check_name := entry.1, status := .ERROR, severity := .MEDIUM,
          message := "Check failed with error: " ++ e }) := by
  constructor
  · intro default_region bucket_name facts
    constructor
    · simp [run_all_checks, checks_catalog]
    · simp only [run_all_checks, checks_catalog, List.map_cons, List.map_nil,
        List.cons.injEq, and_true]
      exact ⟨run_one_name _ _ _ _ (check_bucket_exists_name bucket_name facts),
        run_one_name _ _ _ _ (check_bucket_policy_name bucket_name facts),
        run_one_name _ _ _ _ (check_public_access_name bucket_name facts),
        run_one_name _ _ _ _ (check_acl_permissions_name bucket_name facts),
        run_one_name _ _ _ _ (check_encryption_name bucket_name facts),
        run_one_name _ _ _ _ (check_versioning_name bucket_name facts),
        run_one_name _ _ _ _ (check_lifecycle_name bucket_name facts),
        run_one_name _ _ _ _ (check_cors_name bucket_name facts),
        run_one_name _ _ _ _ (check_logging_name bucket_name facts),
        run_one_name _ _ _ _ (check_replication_name bucket_name facts),
        run_one_name _ _ _ _ (check_object_lock_name bucket_name facts),
        run_one_name _ _ _ _ (check_transfer_acceleration_name bucket_name facts),
        run_one_name _ _ _ _ (check_tagging_name bucket_name facts),
        run_one_name _ _ _ _ (check_bucket_size_name bucket_name facts)⟩
  · intro bucket_name facts entry e h
    unfold run_one
    rw [h]

/-- Witness for C4: on `base_facts` the Replication check raises and the
loop records the synthetic ERROR/MEDIUM result. -/
theorem run_all_checks_total_coverage_witness :
    check_replication "demo-bucket" base_facts =
      .error checkstatus_info_attribute_error ∧
    run_one "demo-bucket" base_facts ("Replication", check_replication) =
      { check_name := "Replication", status := .ERROR, severity := .MEDIUM,
        message := "Check failed with error: " ++ checkstatus_info_attribute_error } :=
  ⟨rfl,
   run_all_checks_total_coverage.2 "demo-bucket" base_facts
     ("Replication", check_replication) checkstatus_info_attribute_error rfl⟩

/-- C2 (code evidence): the CheckStatus enum has no INFO member, so on a
bucket whose replication fact query succeeds and reports replication not
enabled, check_replication raises AttributeError instead of returning an
INFO-status result, run_all_checks recording an ERROR/MEDIUM entry for it;
Object Lock and Transfer Acceleration raise the same way. -/
theorem informational_checks_error_instead_of_info :
    (∀ s : CheckStatus, s = .PASS ∨ s = .FAIL ∨ s = .WARNING ∨ s = .ERROR ∨
      s = .SKIPPED) ∧
    base_facts.replication.enabled = false ∧
    check_replication "demo-bucket" base_facts =
      .error checkstatus_info_attribute_error ∧
    check_object_lock "demo-bucket" base_facts =
      .error checkstatus_info_attribute_error ∧
    check_transfer_acceleration "demo-bucket" base_facts =
      .error checkstatus_info_attribute_error ∧
    (run_all_checks "us-east-1" "demo-bucket" base_facts).results[9]? =
      some { check_name := "Replication", status := .ERROR, severity := .MEDIUM,
             message := "Check failed with error: " ++
               checkstatus_info_attribute_error } :=
  ⟨fun s => by cases s <;> simp, rfl, rfl, rfl, rfl, rfl⟩

/-- C7 counterexample: a versioning fact-query error (which the client encodes
as status "Unknown") makes check_versioning return a FAIL result, not an
ERROR or WARNING one. -/
theorem versioning_error_yields_fail_counterexample :
    get_bucket_versioning (.error "AccessDenied") =
      { status := "Unknown", error := some "AccessDenied" } ∧
    check_versioning "demo-bucket" versioning_error_facts =
      .ok { check_name := "Versioning", status := .FAIL, severity := .MEDIUM,
            message := "Versioning is NOT enabled.",
            recommendation := "Enable versioning to protect against accidental deletes and overwrites.",
            auto_fixable := true, fix_description := "Enable bucket versioning." } ∧
    CheckStatus.FAIL ≠ CheckStatus.ERROR ∧
    CheckStatus.FAIL ≠ CheckStatus.WARNING :=
  ⟨rfl, rfl, by decide, by decide⟩

/-- C7 amended: for every concern, a Fact Provider error on that concern's
fact query never aborts the scan — the report still holds all 14 results —
and degrades only that single concern's check: updating one concern's facts
leaves every other catalog entry unchanged.  The degraded status, however,
is the client's error encoding fed through the check's normal branches, not
uniformly ERROR/WARNING: ACL and Bucket Size errors yield ERROR; Bucket
Policy, Lifecycle, Access Logging and Bucket Tagging errors yield WARNING;
Replication, Object Lock and Transfer Acceleration errors yield ERROR (via
the missing-INFO AttributeError); Existence, Public Access Block and
Server-Side Encryption errors yield FAIL; a CORS error yields PASS; and a
versioning fact-query error, encoded as status "Unknown" and treated like
Disabled, yields an auto-fixable FAIL, not an ERROR or WARNING. -/
theorem fact_error_degrades_only_that_check :
    (∀ (default_region bucket_name : String) (facts : BucketFacts),
      (run_all_checks default_region bucket_name facts).results.length = 14) ∧
    ((∀ (b : String) (facts : BucketFacts) (x : ExistenceFacts) entry,
        entry ∈ checks_catalog → entry.1 ≠ "Bucket Existence & Access" →
        run_one b { facts with existence := x } entry = run_one b facts entry) ∧
     (∀ (b : String) (facts : BucketFacts) (x : PolicyFacts) entry,
        entry ∈ checks_catalog → entry.1 ≠ "Bucket Policy" →
        run_one b { facts with policy := x } entry = run_one b facts entry) ∧
     (∀ (b : String) (facts : BucketFacts) (x : PublicAccessFacts) entry,
        entry ∈ checks_catalog → entry.1 ≠ "Public Access Block" →
        run_one b { facts with public_access_block := x } entry =
          run_one b facts entry) ∧
     (∀ (b : String) (facts : BucketFacts) (x : AclFacts) entry,
        entry ∈ checks_catalog → entry.1 ≠ "ACL Permissions" →
        run_one b { facts with acl := x } entry = run_one b facts entry) ∧
     (∀ (b : String) (facts : BucketFacts) (x : EncryptionFacts) entry,
        entry ∈ checks_catalog → entry.1 ≠ "Server-Side Encryption" →
        run_one b { facts with encryption := x } entry = run_one b facts entry) ∧
     (∀ (b : String) (facts : BucketFacts) (x : VersioningFacts) entry,
        entry ∈ checks_catalog → entry.1 ≠ "Versioning" →
        run_one b { facts with versioning := x } entry = run_one b facts entry) ∧
     (∀ (b : String) (facts : BucketFacts) (x : LifecycleFacts) entry,
        entry ∈ checks_catalog → entry.1 ≠ "Lifecycle Rules" →
        run_one b { facts with lifecycle := x } entry = run_one b facts entry) ∧
     (∀ (b : String) (facts : BucketFacts) (x : CorsFacts) entry,
        entry ∈ checks_catalog → entry.1 ≠ "CORS Configuration" →
        run_one b { facts with cors := x } entry = run_one b facts entry) ∧
     (∀ (b : String) (facts : BucketFacts) (x : LoggingFacts) entry,
        entry ∈ checks_catalog → entry.1 ≠ "Access Logging" →
        run_one b { facts with logging := x } entry = run_one b facts entry) ∧
     (∀ (b : String) (facts : BucketFacts) (x : ReplicationFacts) entry,
        entry ∈ checks_catalog → entry.1 ≠ "Replication" →
        run_one b { facts with replication := x } entry = run_one b facts entry) ∧
     (∀ (b : String) (facts : BucketFacts) (x : ObjectLockFacts) entry,
        entry ∈ checks_catalog → entry.1 ≠ "Object Lock" →
        run_one b { facts with object_lock := x } entry = run_one b facts entry) ∧
     (∀ (b : String) (facts : BucketFacts) (x : AccelerationFacts) entry,
        entry ∈ checks_catalog → entry.1 ≠ "Transfer Acceleration" →
        run_one b { facts with acceleration := x } entry =
          run_one b facts entry) ∧
     (∀ (b : String) (facts : BucketFacts) (x : TaggingFacts) entry,
        entry ∈ checks_catalog → entry.1 ≠ "Bucket Tagging" →
        run_one b { facts with tagging := x } entry = run_one b facts entry) ∧
     (∀ (b : String) (facts : BucketFacts) (x : SizeFacts) entry,
        entry ∈ checks_catalog → entry.1 ≠ "Bucket Size" →
        run_one b { facts with size := x } entry = run_one b facts entry)) ∧
    ((∀ (dr b : String) (facts : BucketFacts),
        facts.existence.exists_ = false →
        ((run_all_checks dr b facts).results[0]?).map (fun r => r.status) =
          some CheckStatus.FAIL) ∧
     (∀ (dr b : String) (facts : BucketFacts),
        facts.policy.exists_ = false →
        ((run_all_checks dr b facts).results[1]?).map (fun r => r.status) =
          some CheckStatus.WARNING) ∧
     (∀ (dr b : String) (facts : BucketFacts),
        facts.public_access_block.exists_ = false →
        ((run_all_checks dr b facts).results[2]?).map (fun r => r.status) =
          some CheckStatus.FAIL) ∧
     (∀ (dr b : String) (facts : BucketFacts),
        facts.acl.success = false →
        ((run_all_checks dr b facts).results[3]?).map (fun r => r.status) =
          some CheckStatus.ERROR) ∧
     (∀ (dr b : String) (facts : BucketFacts),
        facts.encryption.enabled = false →
        ((run_all_checks dr b facts).results[4]?).map (fun r => r.status) =
          some CheckStatus.FAIL) ∧
     (∀ (dr b : String) (facts : BucketFacts) (e : String),
        facts.versioning = get_bucket_versioning (.error e) →
        ((run_all_checks dr b facts).results[5]?).map
            (fun r => (r.status, r.auto_fixable)) =
          some (CheckStatus.FAIL, true)) ∧
     (∀ (dr b : String) (facts : BucketFacts),
        facts.lifecycle.exists_ = false →
        ((run_all_checks dr b facts).results[6]?).map (fun r => r.status) =
          some CheckStatus.WARNING) ∧
     (∀ (dr b : String) (facts : BucketFacts),
        facts.cors.exists_ = false →
        ((run_all_checks dr b facts).results[7]?).map (fun r => r.status) =
          some CheckStatus.PASS) ∧
     (∀ (dr b : String) (facts : BucketFacts),
        facts.logging.enabled = false →
        ((run_all_checks dr b facts).results[8]?).map (fun r => r.status) =
          some CheckStatus.WARNING) ∧
     (∀ (dr b : String) (facts : BucketFacts),
        facts.replication.enabled = false →
        ((run_all_checks dr b facts).results[9]?).map (fun r => r.status) =
          some CheckStatus.ERROR) ∧
     (∀ (dr b : String) (facts : BucketFacts),
        facts.object_lock.enabled = false →
        ((run_all_checks dr b facts).results[10]?).map (fun r => r.status) =
          some CheckStatus.ERROR) ∧
     (∀ (dr b : String) (facts : BucketFacts),
        ((run_all_checks dr b facts).results[11]?).map (fun r => r.status) =
          some CheckStatus.ERROR) ∧
     (∀ (dr b : String) (facts : BucketFacts),
        facts.tagging.exists_ = false →
        ((run_all_checks dr b facts).results[12]?).map (fun r => r.status) =
          some CheckStatus.WARNING) ∧
     (∀ (dr b : String) (facts : BucketFacts),
        facts.size.success = false →
        ((run_all_checks dr b facts).results[13]?).map (fun r => r.status) =
          some CheckStatus.ERROR)) := by
  refine ⟨?_,
    ⟨?_, ?_, ?_, ?_, ?_, ?_, ?_, ?_, ?_, ?_, ?_, ?_, ?_, ?_⟩,
    ⟨?_, ?_, ?_, ?_, ?_, ?_, ?_, ?_, ?_, ?_, ?_, ?_, ?_, ?_⟩⟩
  · intro dr b facts
    simp [run_all_checks, checks_catalog]
  · intro b facts x entry hmem hne
    simp only [checks_catalog, List.mem_cons, List.not_mem_nil, or_false] at hmem
    rcases hmem with rfl|rfl|rfl|rfl|rfl|rfl|rfl|rfl|rfl|rfl|rfl|rfl|rfl|rfl <;>
      first
        | rfl
        | exact absurd rfl hne
  · intro b facts x entry hmem hne
    simp only [checks_catalog, List.mem_cons, List.not_mem_nil, or_false] at hmem
    rcases hmem with rfl|rfl|rfl|rfl|rfl|rfl|rfl|rfl|rfl|rfl|rfl|rfl|rfl|rfl <;>
      first
        | rfl
        | exact absurd rfl hne
  · intro b facts x entry hmem hne
    simp only [checks_catalog, List.mem_cons, List.not_mem_nil, or_false] at hmem
    rcases hmem with rfl|rfl|rfl|rfl|rfl|rfl|rfl|rfl|rfl|rfl|rfl|rfl|rfl|rfl <;>
      first
        | rfl
        | exact absurd rfl hne
  · intro b facts x entry hmem hne
    simp only [checks_catalog, List.mem_cons, List.not_mem_nil, or_false] at hmem
    rcases hmem with rfl|rfl|rfl|rfl|rfl|rfl|rfl|rfl|rfl|rfl|rfl|rfl|rfl|rfl <;>
      first
        | rfl
        | exact absurd rfl hne
  · intro b facts x entry hmem hne
    simp only [checks_catalog, List.mem_cons, List.not_mem_nil, or_false] at hmem
    rcases hmem with rfl|rfl|rfl|rfl|rfl|rfl|rfl|rfl|rfl|rfl|rfl|rfl|rfl|rfl <;>
      first
        | rfl
        | exact absurd rfl hne
  · intro b facts x entry hmem hne
    simp only [checks_catalog, List.mem_cons, List.not_mem_nil, or_false] at hmem
    rcases hmem with rfl|rfl|rfl|rfl|rfl|rfl|rfl|rfl|rfl|rfl|rfl|rfl|rfl|rfl <;>
      first
        | rfl
        | exact absurd rfl hne
  · intro b facts x entry hmem hne
    simp only [checks_catalog, List.mem_cons, List.not_mem_nil, or_false] at hmem
    rcases hmem with rfl|rfl|rfl|rfl|rfl|rfl|rfl|rfl|rfl|rfl|rfl|rfl|rfl|rfl <;>
      first
        | rfl
        | exact absurd rfl hne
  · intro b facts x entry hmem hne
    simp only [checks_catalog, List.mem_cons, List.not_mem_nil, or_false] at hmem
    rcases hmem with rfl|rfl|rfl|rfl|rfl|rfl|rfl|rfl|rfl|rfl|rfl|rfl|rfl|rfl <;>
      first
        | rfl
        | exact absurd rfl hne
  · intro b facts x entry hmem hne
    simp only [checks_catalog, List.mem_cons, List.not_mem_nil, or_false] at hmem
    rcases hmem with rfl|rfl|rfl|rfl|rfl|rfl|rfl|rfl|rfl|rfl|rfl|rfl|rfl|rfl <;>
      first
        | rfl
        | exact absurd rfl hne
  · intro b facts x entry hmem hne
    simp only [checks_catalog, List.mem_cons, List.not_mem_nil, or_false] at hmem
    rcases hmem with rfl|rfl|rfl|rfl|rfl|rfl|rfl|rfl|rfl|rfl|rfl|rfl|rfl|rfl <;>
      first
        | rfl
        | exact absurd rfl hne
  · intro b facts x entry hmem hne
    simp only [checks_catalog, List.mem_cons, List.not_mem_nil, or_false] at hmem
    rcases hmem with rfl|rfl|rfl|rfl|rfl|rfl|rfl|rfl|rfl|rfl|rfl|rfl|rfl|rfl <;>
      first
        | rfl
        | exact absurd rfl hne
  · intro b facts x entry hmem hne
    simp only [checks_catalog, List.mem_cons, List.not_mem_nil, or_false] at hmem
    rcases hmem with rfl|rfl|rfl|rfl|rfl|rfl|rfl|rfl|rfl|rfl|rfl|rfl|rfl|rfl <;>
      first
        | rfl
        | exact absurd rfl hne
  · intro b facts x entry hmem hne
    simp only [checks_catalog, List.mem_cons, List.not_mem_nil, or_false] at hmem
    rcases hmem with rfl|rfl|rfl|rfl|rfl|rfl|rfl|rfl|rfl|rfl|rfl|rfl|rfl|rfl <;>
      first
        | rfl
        | exact absurd rfl hne
  · intro b facts x entry hmem hne
    simp only [checks_catalog, List.mem_cons, List.not_mem_nil, or_false] at hmem
    rcases hmem with rfl|rfl|rfl|rfl|rfl|rfl|rfl|rfl|rfl|rfl|rfl|rfl|rfl|rfl <;>
      first
        | rfl
        | exact absurd rfl hne
  · intro dr b facts h
    have hidx : (run_all_checks dr b facts).results[0]? =
        some (run_one b facts ("Bucket Existence & Access", check_bucket_exists)) := rfl
    rw [hidx]
    simp [run_one, check_bucket_exists, h]
  · intro dr b facts h
    have hidx : (run_all_checks dr b facts).results[1]? =
        some (run_one b facts ("Bucket Policy", check_bucket_policy)) := rfl
    rw [hidx]
    simp [run_one, check_bucket_policy, h]
  · intro dr b facts h
    have hidx : (run_all_checks dr b facts).results[2]? =
        some (run_one b facts ("Public Access Block", check_public_access)) := rfl
    rw [hidx]
    simp [run_one, check_public_access, h]
  · intro dr b facts h
    have hidx : (run_all_checks dr b facts).results[3]? =
        some (run_one b facts ("ACL Permissions", check_acl_permissions)) := rfl
    rw [hidx]
    simp [run_one, check_acl_permissions, h]
  · intro dr b facts h
    have hidx : (run_all_checks dr b facts).results[4]? =
        some (run_one b facts ("Server-Side Encryption", check_encryption)) := rfl
    rw [hidx]
    simp [run_one, check_encryption, h]
  · intro dr b facts e h
    have hidx : (run_all_checks dr b facts).results[5]? =
        some (run_one b facts ("Versioning", check_versioning)) := rfl
    rw [hidx]
    simp [run_one, check_versioning, h, get_bucket_versioning]
  · intro dr b facts h
    have hidx : (run_all_checks dr b facts).results[6]? =
        some (run_one b facts ("Lifecycle Rules", check_lifecycle)) := rfl
    rw [hidx]
    simp [run_one, check_lifecycle, h]
  · intro dr b facts h
    have hidx : (run_all_checks dr b facts).results[7]? =
        some (run_one b facts ("CORS Configuration", check_cors)) := rfl
    rw [hidx]
    simp [run_one, check_cors, h]
  · intro dr b facts h
    have hidx : (run_all_checks dr b facts).results[8]? =
        some (run_one b facts ("Access Logging", check_logging)) := rfl
    rw [hidx]
    simp [run_one, check_logging, h]
  · intro dr b facts h
    have hidx : (run_all_checks dr b facts).results[9]? =
        some (run_one b facts ("Replication", check_replication)) := rfl
    rw [hidx]
    simp [run_one, check_replication, h]
  · intro dr b facts h
    have hidx : (run_all_checks dr b facts).results[10]? =
        some (run_one b facts ("Object Lock", check_object_lock)) := rfl
    rw [hidx]
    simp [run_one, check_object_lock, h]
  · intro dr b facts
    have hidx : (run_all_checks dr b facts).results[11]? =
        some (run_one b facts
          ("Transfer Acceleration", check_transfer_acceleration)) := rfl
    rw [hidx]
    simp [run_one, check_transfer_acceleration]
  · intro dr b facts h
    have hidx : (run_all_checks dr b facts).results[12]? =
        some (run_one b facts ("Bucket Tagging", check_tagging)) := rfl
    rw [hidx]
    simp [run_one, check_tagging, h]
  · intro dr b facts h
    have hidx : (run_all_checks dr b facts).results[13]? =
        some (run_one b facts ("Bucket Size", check_bucket_size)) := rfl
    rw [hidx]
    simp [run_one, check_bucket_size, h]

/-- Witness for C7 amended, at facts in which every concern query failed. -/
theorem fact_error_degrades_only_that_check_witness :
    (run_all_checks "us-east-1" "demo-bucket" all_error_facts).results.length = 14 ∧
    ((run_all_checks "us-east-1" "demo-bucket" all_error_facts).results[3]?).map
        (fun r => r.status) = some CheckStatus.ERROR ∧
    ((run_all_checks "us-east-1" "demo-bucket" all_error_facts).results[5]?).map
        (fun r => (r.status, r.auto_fixable)) = some (CheckStatus.FAIL, true) ∧
    ((run_all_checks "us-east-1" "demo-bucket" all_error_facts).results[7]?).map
        (fun r => r.status) = some CheckStatus.PASS ∧
    run_one "demo-bucket"
        { all_error_facts with versioning := ⟨"Enabled", "Disabled", none⟩ }
        ("Bucket Policy", check_bucket_policy) =
      run_one "demo-bucket" all_error_facts ("Bucket Policy", check_bucket_policy) :=
  ⟨fact_error_degrades_only_that_check.1 "us-east-1" "demo-bucket" all_error_facts,
   fact_error_degrades_only_that_check.2.2.2.2.2.1 "us-east-1" "demo-bucket"
     all_error_facts rfl,
   fact_error_degrades_only_that_check.2.2.2.2.2.2.2.1 "us-east-1" "demo-bucket"
     all_error_facts "AccessDenied" rfl,
   fact_error_degrades_only_that_check.2.2.2.2.2.2.2.2.2.1 "us-east-1"
     "demo-bucket" all_error_facts rfl,
   fact_error_degrades_only_that_check.2.1.2.2.2.2.2.1 "demo-bucket"
     all_error_facts ⟨"Enabled", "Disabled", none⟩
     ("Bucket Policy", check_bucket_policy) (by simp [checks_catalog])
     (by decide)⟩

/-- C3 counterexample: check_logging produces an auto-fixable result whose
check_name "Access Logging" lies outside the registered remediation set. -/
theorem autofix_closure_counterexample :
    check_logging "demo-bucket" logging_off_facts = .ok r_logging_warning ∧
    r_logging_warning.auto_fixable = true ∧
    r_logging_warning.check_name ∉
      (["Public Access Block", "Server-Side Encryption", "Versioning"] :
        List String) ∧
    ("Access Logging", check_logging) ∈ checks_catalog := by
  refine ⟨rfl, rfl, by decide, ?_⟩
  simp [checks_catalog]

/-- C3 amended: for every DiagnosticResult produced by any check of the
catalog, auto_fixable=true implies check_name is one of Public Access Block,
Server-Side Encryption, Versioning, or Access Logging (the last being the
check whose WARNING is flagged auto-fixable without a remediation entry). -/
theorem autofix_closure_amended (bucket_name : String) (facts : BucketFacts)
    (entry : String × (String → BucketFacts → Except String DiagnosticResult))
    (hmem : entry ∈ checks_catalog) (r : DiagnosticResult)
    (hok : entry.2 bucket_name facts = .ok r) (hfix : r.auto_fixable = true) :
    r.check_name ∈ ["Public Access Block", "Server-Side Encryption",
      "Versioning", "Access Logging"] := by
  simp only [checks_catalog, List.mem_cons, List.not_mem_nil, or_false] at hmem
  rcases hmem with rfl | rfl | rfl | rfl | rfl | rfl | rfl | rfl | rfl | rfl |
    rfl | rfl | rfl | rfl <;>
    simp only [check_bucket_exists, check_bucket_policy, check_public_access,
      check_acl_permissions, check_encryption, check_versioning,
      check_lifecycle, check_cors, check_logging, check_replication,
      check_object_lock, check_transfer_acceleration, check_tagging,
      check_bucket_size] at hok
  all_goals repeat' split at hok
  all_goals first
    | (injection hok with h2; subst h2; simp_all)
    | injection hok

/-- Witness for C3 amended, at the Access Logging WARNING. -/
theorem autofix_closure_amended_witness :
    r_logging_warning.check_name ∈ ["Public Access Block",
      "Server-Side Encryption", "Versioning", "Access Logging"] :=
  autofix_closure_amended "demo-bucket" logging_off_facts
    ("Access Logging", check_logging) (by simp [checks_catalog])
    r_logging_warning rfl rfl

/-- C5: remediate_all selects exactly the results with auto_fixable=true and
status in {FAIL, WARNING}, preserving the original order (the selection is a
sublist of the report's results); its outcomes, when it proceeds, enumerate
exactly that selection; and when the selection is empty it returns an empty
sequence without prompting and without invoking any mutation (the run is
identical for every S3Api). -/
theorem remediate_all_selection (api api2 : S3Api)
    (auto_approve user_confirms : Bool) (report : BucketReport) :
    (fixable_results report).Sublist report.results ∧
    (∀ r, r ∈ fixable_results report ↔
      r ∈ report.results ∧ r.auto_fixable = true ∧
        (r.status = .FAIL ∨ r.status = .WARNING)) ∧
    ((remediate_all api auto_approve user_confirms report).outcomes = [] ∨
     (remediate_all api auto_approve user_confirms report).outcomes =
       (fixable_results report).map (apply_fix api report.bucket_name)) ∧
    (fixable_results report = [] →
      remediate_all api auto_approve user_confirms report =
        { prompted := false, outcomes := [] } ∧
      remediate_all api auto_approve user_confirms report =
        remediate_all api2 auto_approve user_confirms report) := by
  refine ⟨List.filter_sublist _, ?_, ?_, ?_⟩
  · intro r
    simp only [fixable_results, List.mem_filter, Bool.and_eq_true,
      Bool.or_eq_true, beq_iff_eq]
  · unfold remediate_all
    by_cases hemp : (fixable_results report).isEmpty
    · simp [hemp]
    · by_cases hc : (!auto_approve && !user_confirms) = true
      · simp [hemp, hc]
      · simp [hemp, hc]
  · intro h
    have hemp : (fixable_results report).isEmpty = true := by simp [h]
    constructor <;> simp [remediate_all, hemp]

/-- Witness for C5 on a report with no auto-fixable failing result. -/
theorem remediate_all_selection_witness :
    fixable_results clean_report = [] ∧
    remediate_all api_denied false false clean_report =
      { prompted := false, outcomes := [] } :=
  ⟨rfl,
   ((remediate_all_selection api_denied api_ok false false clean_report).2.2.2
      rfl).1⟩

/-- C6 counterexample: the defensive no-fix outcome carries the message
"No automated fix available for this check.", not the literal
"no automated fix available" the claim states. -/
theorem no_fix_message_counterexample :
    (remediate_all api_ok true true logging_only_report).outcomes =
      [{ check := "Access Logging", success := false,
         message := some "No automated fix available for this check." }] ∧
    (remediate_all api_ok true true logging_only_report).outcomes.map
        (fun o => o.message) ≠ [some "no automated fix available"] :=
  ⟨rfl, by decide⟩

/-- C6 amended: in an approved run, remediate_all records exactly one outcome
per selected result, in order, each outcome depending only on its own
result; a selected result whose check_name is not in the remediation map
yields success=false with the message "No automated fix available for this
check." without raising; and a failing mutation is caught inside the
mutation method and recorded as success=false, so it cannot abort the
processing of subsequent fixes. -/
theorem remediate_all_outcomes (api : S3Api) (auto_approve user_confirms : Bool)
    (report : BucketReport)
    (happroved : auto_approve = true ∨ user_confirms = true) :
    (remediate_all api auto_approve user_confirms report).outcomes =
      (fixable_results report).map (apply_fix api report.bucket_name) ∧
    (remediate_all api auto_approve user_confirms report).outcomes.length =
      (fixable_results report).length ∧
    (∀ i : Nat,
      (remediate_all api auto_approve user_confirms report).outcomes[i]? =
        ((fixable_results report)[i]?).map (apply_fix api report.bucket_name)) ∧
    (∀ issue : DiagnosticResult, (fix_map api).lookup issue.check_name = none →
      apply_fix api report.bucket_name issue =
        { check := issue.check_name, success := false,
          message := some "No automated fix available for this check." }) ∧
    (∀ (api3 : S3Api) (b e : String), api3.put_bucket_versioning b = .error e →
      enable_versioning api3 b = { success := false, error := some e }) := by
  have houtcomes :
      (remediate_all api auto_approve user_confirms report).outcomes =
        (fixable_results report).map (apply_fix api report.bucket_name) := by
    by_cases hemp : (fixable_results report).isEmpty
    · have h0 : fixable_results report = [] := by simpa [List.isEmpty_iff] using hemp
      simp [remediate_all, hemp, h0]
    · have hcond : (!auto_approve && !user_confirms) = false := by
        rcases happroved with rfl | rfl <;> simp
      simp [remediate_all, hemp, hcond]
  refine ⟨houtcomes, by rw [houtcomes]; simp, ?_, ?_, ?_⟩
  · intro i
    rw [houtcomes, List.getElem?_map]
  · intro issue h
    simp [apply_fix, h]
  · intro api3 b e h
    simp [enable_versioning, h]

/-- Witness for C6 amended: a failing Versioning fix is recorded as
success=false and the subsequent defensive Access Logging outcome is still
recorded. -/
theorem remediate_all_outcomes_witness :
    (remediate_all api_denied true true mixed_report).outcomes =
      [{ check := "Versioning", success := false, error := some "AccessDenied" },
       { check := "Access Logging", success := false,
         message := some "No automated fix available for this check." }] ∧
    (remediate_all api_denied true true mixed_report).outcomes.length =
      (fixable_results mixed_report).length :=
  ⟨by
    rw [(remediate_all_outcomes api_denied true true mixed_report (Or.inl rfl)).1]
    rfl,
   (remediate_all_outcomes api_denied true true mixed_report (Or.inl rfl)).2.1⟩

theorem statement_issues_obj (skvs : List (String × JVal)) :
    statement_issues (.obj skvs) =
      .ok ((if (((skvs.lookup "Effect").getD (.str "")).isStrEq "Allow" &&
                ((((skvs.lookup "Principal").getD (.str ""))).isStrEq "*" ||
                 (((skvs.lookup "Principal").getD (.str ""))).isAwsStarObj))
            then [{ type_ := "OPEN_ACCESS", severity := "CRITICAL" }] else []) ++
           (if (((skvs.lookup "Action").getD (.str ""))).isStrEq "s3:*"
            then [{ type_ := "WILDCARD_ACTIONS", severity := "HIGH" }] else []) ++
           (match (skvs.lookup "Action").getD (.str "") with
            | .arr acts =>
                (acts.filter (fun a =>
                  sensitive_actions.any (fun s => a.isStrEq s) &&
                  !(JVal.hasKey (.obj skvs) "Condition"))).map
                  (fun _ => ({ type_ := "MISSING_CONDITION", severity := "MEDIUM" } : PolicyIssue))
            | _ => [])) := rfl

theorem ite_singleton_eq_nil {α : Type} (c : Bool) (a : α) :
    (if c then [a] else []) = [] ↔ c = false := by
  cases c <;> simp

theorem ite_singleton_any {α : Type} (c : Bool) (a : α) (p : α → Bool) :
    (if c then [a] else []).any p = (c && p a) := by
  cases c <;> simp

theorem filter_map_const_any_false (acts : List JVal) (f : JVal → Bool) :
    ((acts.filter f).map
        (fun _ => ({ type_ := "MISSING_CONDITION", severity := "MEDIUM" } :
          PolicyIssue))).any (fun i => i.severity == "CRITICAL") = false := by
  induction acts with
  | nil => rfl
  | cons a rest ih =>
      by_cases hf : f a <;> simp_all [List.filter_cons]

theorem missing_condition_part_eq_nil (action : JVal) (c : Bool) :
    (match action with
     | .arr acts =>
        (acts.filter (fun a =>
            sensitive_actions.any (fun s => a.isStrEq s) && c)).map
          (fun _ => ({ type_ := "MISSING_CONDITION", severity := "MEDIUM" } :
            PolicyIssue))
     | _ => []) = [] ↔
    ((match action with
      | .arr acts => acts.any (fun a => sensitive_actions.any (fun s => a.isStrEq s))
      | _ => false) && c) = false := by
  rcases action with _ | b | lit | s | acts | okvs <;>
    cases c <;>
    simp [List.filter_eq_nil_iff, List.any_eq_true]

theorem statement_issues_obj_characterization (skvs : List (String × JVal)) :
    ∃ l, statement_issues (.obj skvs) = .ok l ∧
      (l = [] ↔
        (is_wildcard_principal_allow (.obj skvs) = false ∧
         has_bare_s3_star (.obj skvs) = false ∧
         has_unconditioned_sensitive_action (.obj skvs) = false)) ∧
      (l.any (fun i => i.severity == "CRITICAL") = true ↔
        is_wildcard_principal_allow (.obj skvs) = true) := by
  refine ⟨_, statement_issues_obj skvs, ?_, ?_⟩
  · rw [List.append_eq_nil, List.append_eq_nil, ite_singleton_eq_nil,
      ite_singleton_eq_nil, missing_condition_part_eq_nil]
    simp only [is_wildcard_principal_allow, has_bare_s3_star,
      has_unconditioned_sensitive_action]
    constructor
    · rintro ⟨⟨a, b⟩, c⟩
      exact ⟨a, b, c⟩
    · rintro ⟨a, b, c⟩
      exact ⟨⟨a, b⟩, c⟩
  · rw [List.any_append, List.any_append, ite_singleton_any, ite_singleton_any]
    simp only [is_wildcard_principal_allow]
    rcases hact : (skvs.lookup "Action").getD (.str "") with _ | b | lit | s | acts | okvs <;>
      simp [hact, filter_map_const_any_false]

theorem policy_issues_ok_of_objs (stmts : List JVal)
    (h : ∀ s ∈ stmts, ∃ skvs, s = .obj skvs) :
    ∃ L, policy_issues stmts = .ok L ∧
      (L = [] ↔ ∀ s ∈ stmts,
        is_wildcard_principal_allow s = false ∧ has_bare_s3_star s = false ∧
        has_unconditioned_sensitive_action s = false) ∧
      (L.any (fun i => i.severity == "CRITICAL") = true ↔
        ∃ s ∈ stmts, is_wildcard_principal_allow s = true) := by
  induction stmts with
  | nil => exact ⟨[], rfl, by simp, by simp⟩
  | cons s rest ih =>
      obtain ⟨skvs, rfl⟩ := h s (List.mem_cons_self s rest)
      obtain ⟨l, hsl, hle, hlc⟩ := statement_issues_obj_characterization skvs
      obtain ⟨L, hL, hLe, hLc⟩ := ih (fun t ht => h t (List.mem_cons_of_mem _ ht))
      refine ⟨l ++ L, ?_, ?_, ?_⟩
      · simp only [policy_issues, hsl, hL]
        rfl
      · rw [List.append_eq_nil, List.forall_mem_cons, hle, hLe]
      · rw [List.any_append, Bool.or_eq_true, hlc, hLc]
        simp

theorem check_bucket_policy_parsed (bucket_name : String) (facts : BucketFacts)
    (kvs : List (String × JVal)) (stmts : List JVal) (L : List PolicyIssue)
    (hex : facts.policy.exists_ = true)
    (hparse : facts.policy.parse = .ok (.obj kvs))
    (hstmt : (kvs.lookup "Statement").getD (.arr []) = .arr stmts)
    (hL : policy_issues stmts = .ok L) :
    check_bucket_policy bucket_name facts =
      (if !L.isEmpty then
        .ok { check_name := "Bucket Policy",
              status := if L.any (fun i => i.severity == "CRITICAL")
                        then .FAIL else .WARNING,
              severity := if L.any (fun i => i.severity == "CRITICAL")
                          then .CRITICAL else .HIGH,
              message := "Bucket policy has " ++ toString L.length ++ " issue(s).",
              recommendation := "Review and tighten bucket policy. Remove wildcard principals, restrict actions, and add conditions." }
      else
        .ok { check_name := "Bucket Policy", status := .PASS, severity := .HIGH,
              message := "Bucket policy exists and appears properly configured." }) := by
  simp only [check_bucket_policy, hex, hparse, jget, jIter, hstmt, hL,
    Bool.not_true, if_false]
  simp

/-- C8 counterexample: a parsed policy whose single statement has neither a
wildcard-principal Allow nor a bare s3:* action, yet the check returns
WARNING (severity HIGH), not PASS, because the statement carries a
condition-less sensitive action in a list-valued Action. -/
theorem bucket_policy_pass_counterexample :
    is_wildcard_principal_allow sensitive_stmt = false ∧
    has_bare_s3_star sensitive_stmt = false ∧
    check_bucket_policy "demo-bucket" sensitive_policy_facts =
      .ok { check_name := "Bucket Policy", status := .WARNING, severity := .HIGH,
            message := "Bucket policy has 1 issue(s).",
            recommendation := "Review and tighten bucket policy. Remove wildcard principals, restrict actions, and add conditions." } ∧
    CheckStatus.WARNING ≠ CheckStatus.PASS :=
  ⟨rfl, rfl, rfl, by decide⟩

/-- C8 amended: the Bucket Policy check returns, for a present and parsable
policy object whose statements are all objects, PASS exactly when no
statement is a wildcard-principal Allow, none has a bare s3:* action, and
none carries a condition-less sensitive action in a list-valued Action; on
any issue it returns FAIL with severity CRITICAL exactly when a
wildcard-principal Allow (CRITICAL issue) is present and otherwise WARNING
with severity HIGH; an unparsable policy yields ERROR; an absent policy
yields WARNING with severity LOW. -/
theorem check_bucket_policy_spec (bucket_name : String) :
    (∀ facts : BucketFacts, facts.policy.exists_ = false →
      check_bucket_policy bucket_name facts =
        .ok { check_name := "Bucket Policy", status := .WARNING,
              severity := .LOW,
              message := "No bucket policy is configured.",
              recommendation := "Consider adding a bucket policy to explicitly define access controls." }) ∧
    (∀ facts : BucketFacts, facts.policy.exists_ = true →
      facts.policy.parse = .error () →
      check_bucket_policy bucket_name facts =
        .ok { check_name := "Bucket Policy", status := .ERROR, severity := .HIGH,
              message := "Failed to parse bucket policy JSON." }) ∧
    (∀ (facts : BucketFacts) (kvs : List (String × JVal)) (stmts : List JVal),
      facts.policy.exists_ = true →
      facts.policy.parse = .ok (.obj kvs) →
      (kvs.lookup "Statement").getD (.arr []) = .arr stmts →
      (∀ s ∈ stmts, ∃ skvs, s = .obj skvs) →
      ∃ r, check_bucket_policy bucket_name facts = .ok r ∧
        (r.status = .PASS ↔ ∀ s ∈ stmts,
          is_wildcard_principal_allow s = false ∧ has_bare_s3_star s = false ∧
          has_unconditioned_sensitive_action s = false) ∧
        (r.status = .FAIL ↔ ∃ s ∈ stmts, is_wildcard_principal_allow s = true) ∧
        (r.status = .FAIL → r.severity = .CRITICAL) ∧
        (r.status = .WARNING → r.severity = .HIGH) ∧
        (r.status = .PASS ∨ r.status = .FAIL ∨ r.status = .WARNING)) := by
  refine ⟨?_, ?_, ?_⟩
  · intro facts hex
    simp only [check_bucket_policy, hex, Bool.not_false, if_true]
  · intro facts hex hparse
    simp only [check_bucket_policy, hex, hparse, Bool.not_true, if_false]
    simp
  · intro facts kvs stmts hex hparse hstmt hwf
    obtain ⟨L, hL, hLe, hLc⟩ := policy_issues_ok_of_objs stmts hwf
    rw [check_bucket_policy_parsed bucket_name facts kvs stmts L hex hparse
      hstmt hL]
    by_cases hemp : L = []
    · refine ⟨{ check_name := "Bucket Policy", status := .PASS,
                severity := .HIGH,
                message := "Bucket policy exists and appears properly configured." },
        by simp [hemp], ?_, ?_, ?_, ?_, ?_⟩
      · simpa using hLe.mp hemp
      · constructor
        · intro hfail
          exact absurd hfail (by simp)
        · intro hexw
          have hany := hLc.mpr hexw
          rcases List.any_eq_true.mp hany with ⟨i, hi, _⟩
          rw [hemp] at hi
          exact absurd hi (List.not_mem_nil i)
      · intro hfail
        exact absurd hfail (by simp)
      · intro hwarn
        exact absurd hwarn (by simp)
      · exact Or.inl rfl
    · have hne : L.isEmpty = false := by
        simpa [List.isEmpty_iff] using hemp
      by_cases hcrit : L.any (fun i => i.severity == "CRITICAL") = true
      · refine ⟨{ check_name := "Bucket Policy", status := .FAIL,
                  severity := .CRITICAL,
                  message := "Bucket policy has " ++ toString L.length ++ " issue(s).",
                  recommendation := "Review and tighten bucket policy. Remove wildcard principals, restrict actions, and add conditions." },
          by simp [hne, hcrit], ?_, ?_, ?_, ?_, ?_⟩
        · constructor
          · intro hpass
            exact absurd hpass (by simp)
          · intro hall
            exact absurd (hLe.mpr (by simpa using hall)) hemp
        · simp [hLc.mp hcrit]
        · intro _
          rfl
        · intro hwarn
          exact absurd hwarn (by simp)
        · exact Or.inr (Or.inl rfl)
      · refine ⟨{ check_name := "Bucket Policy", status := .WARNING,
                  severity := .HIGH,
                  message := "Bucket policy has " ++ toString L.length ++ " issue(s).",
                  recommendation := "Review and tighten bucket policy. Remove wildcard principals, restrict actions, and add conditions." },
          by simp [hne, hcrit], ?_, ?_, ?_, ?_, ?_⟩
        · constructor
          · intro hpass
            exact absurd hpass (by simp)
          · intro hall
            exact absurd (hLe.mpr (by simpa using hall)) hemp
        · constructor
          · intro hfail
            exact absurd hfail (by simp)
          · intro hexw
            exact absurd (hLc.mpr hexw) hcrit
        · intro hfail
          exact absurd hfail (by simp)
        · intro _
          rfl
        · exact Or.inr (Or.inr rfl)

/-- Witness for C8 amended, at the concrete sensitive policy. -/
theorem check_bucket_policy_spec_witness :
    ∃ r, check_bucket_policy "demo-bucket" sensitive_policy_facts = .ok r ∧
      (r.status = .FAIL ↔
        ∃ s ∈ [sensitive_stmt], is_wildcard_principal_allow s = true) := by
  obtain ⟨r, hr, _, hfail, _⟩ :=
    (check_bucket_policy_spec "demo-bucket").2.2 sensitive_policy_facts
      [("Statement", .arr [sensitive_stmt])] [sensitive_stmt] rfl rfl rfl
      (by
        intro s hs
        rw [List.mem_singleton] at hs
        subst hs
        exact ⟨_, rfl⟩)
  exact ⟨r, hr, hfail⟩

/-- C9: the computed score and health label are invariant under permutation
of the result sequence. -/
theorem calculate_score_perm_invariant (l l' : List DiagnosticResult)
    (h : l.Perm l') : calculate_score l = calculate_score l' := by
  have hws : weighted_sum l = weighted_sum l' := List.Perm.sum_eq (h.map _)
  have htw : total_weight l = total_weight l' := List.Perm.sum_eq (h.map _)
  have hemp : l.isEmpty = l'.isEmpty := by
    rcases l with _ | ⟨a, t⟩ <;> rcases l' with _ | ⟨b, t'⟩ <;>
      first
        | rfl
        | (exfalso; simpa using h.length_eq)
  simp only [calculate_score, score_accum_eq, hws, htw, hemp]

/-- Witness for C9: swapping two results leaves score and health unchanged. -/
theorem calculate_score_perm_invariant_witness :
    calculate_score [r_pass_critical, r_fail_high] =
      calculate_score [r_fail_high, r_pass_critical] :=
  calculate_score_perm_invariant _ _ (List.Perm.swap r_fail_high r_pass_critical [])

/-- C10: on any non-empty result sequence the accumulated total weight is at
least the number of results, because every severity multiplier is at least
one; it is therefore strictly positive, so the score always comes from the
division formula, never from the total_weight-not-positive fallback. -/
theorem total_weight_fallback_unreachable (results : List DiagnosticResult)
    (h : results ≠ []) :
    (∀ s, 1 ≤ severity_multiplier s) ∧
    (results.length : ℚ) ≤ total_weight results ∧
    0 < total_weight results ∧
    (calculate_score results).1 =
      py_int (weighted_sum results / total_weight results * 100) := by
  have hemp : results.isEmpty = false := by
    simpa [List.isEmpty_iff] using h
  refine ⟨severity_multiplier_ge_one, total_weight_ge_length results,
    total_weight_pos results h, ?_⟩
  simp only [calculate_score, hemp, Bool.false_eq_true, if_false, score_accum_eq]
  rw [if_pos (total_weight_pos results h)]

/-- Witness for C10 at a concrete one-element input. -/
theorem total_weight_fallback_unreachable_witness :
    ([r_pass_medium] : List DiagnosticResult) ≠ [] ∧
    0 < total_weight [r_pass_medium] :=
  ⟨List.cons_ne_nil _ _,
   (total_weight_fallback_unreachable [r_pass_medium]
      (List.cons_ne_nil _ _)).2.2.1⟩

end S3Troubleshooter
